import Mathlib

/-!
Shallow embedding of `src/app.py` (Manufac_asset): a manufacturing-asset
tracking application built on a relational store with three tables
(products, machines, productions), form handlers for adding machines and
products, a report page, and a machine-monitoring loop.

Modelling conventions:
* SQLAlchemy rows become Lean structures; the store (`session` + SQLite
  tables) is a `Store` of lists plus auto-increment counters.
* Python floats are modelled as `ℚ` (exact arithmetic).
* Timestamps (`datetime.now()`) are modelled as `Nat` seconds.
* `st.session_state.running_machine` is an `Option Nat` (`none` covers both
  "attribute absent" and "set to None"; machine ids are never `None`).
* The monitoring loop polls the machine status on each iteration; the
  sequence of observed statuses is an environment `env : Nat → String`
  (an external actor may flip the status between iterations).  `time.sleep(1)`
  advances the clock by one second and is the only passage of time.
* The unbounded `while` loop is run on explicit fuel; `none` means the loop
  did not finish within the given fuel.
-/

namespace Manufac

/-- Row of the `products` table (`class Product` in app.py). -/
structure Product where
  id : Nat
  name : String
  price : ℚ
  quantity : Int
  deriving Repr, DecidableEq

/-- Row of the `machines` table (`class Machine` in app.py). -/
structure Machine where
  id : Nat
  name : String
  status : String
  last_maintenance : Nat
  deriving Repr, DecidableEq

/-- Row of the `productions` table (`class Production` in app.py). -/
structure Production where
  id : Nat
  machine_id : Nat
  start_time : Nat
  end_time : Option Nat
  run_time : ℚ
  production_quantity : Nat
  deriving Repr, DecidableEq

/-- The relational store: the three tables in insertion order, plus the
auto-increment counters for the integer primary keys. -/
structure Store where
  products : List Product
  machines : List Machine
  productions : List Production
  nextProductId : Nat
  nextMachineId : Nat
  nextProductionId : Nat
  deriving Repr, DecidableEq

def emptyStore : Store :=
  { products := [], machines := [], productions := [],
    nextProductId := 1, nextMachineId := 1, nextProductionId := 1 }

/-- `session.add(product); session.commit()`: the store assigns the
auto-increment identity and appends the row.  Returns the new store and the
assigned id. -/
def insertProduct (s : Store) (p : Product) : Store × Nat :=
  ({ s with products := s.products ++ [{ p with id := s.nextProductId }],
            nextProductId := s.nextProductId + 1 }, s.nextProductId)

/-- `session.add(machine); session.commit()`. -/
def insertMachine (s : Store) (m : Machine) : Store × Nat :=
  ({ s with machines := s.machines ++ [{ m with id := s.nextMachineId }],
            nextMachineId := s.nextMachineId + 1 }, s.nextMachineId)

/-- `session.add(production_entry); session.commit()`. -/
def insertProduction (s : Store) (p : Production) : Store × Nat :=
  ({ s with productions := s.productions ++ [{ p with id := s.nextProductionId }],
            nextProductionId := s.nextProductionId + 1 }, s.nextProductionId)

/-- `session.query(Machine).get(machine_id)`: primary-key lookup. -/
def getMachine (s : Store) (machine_id : Nat) : Option Machine :=
  s.machines.find? (fun m => m.id == machine_id)

/-- `session.query(Product).get(product_id)`. -/
def getProduct (s : Store) (product_id : Nat) : Option Product :=
  s.products.find? (fun p => p.id == product_id)

/-- `session.query(Production).get(production_id)`. -/
def getProduction (s : Store) (production_id : Nat) : Option Production :=
  s.productions.find? (fun p => p.id == production_id)

/-- Well-formed store: every stored primary key is below the corresponding
auto-increment counter (true of every store the app can reach, and of the
backing SQLite tables). -/
def Store.WF (s : Store) : Prop :=
  (∀ p ∈ s.products, p.id < s.nextProductId) ∧
  (∀ m ∈ s.machines, m.id < s.nextMachineId) ∧
  (∀ p ∈ s.productions, p.id < s.nextProductionId)

/-- Python's `str.strip()` with no argument: remove leading and trailing
whitespace.  (Defined structurally over the character list so that it
evaluates; `String.trim` in the library is extensionally the same but is not
kernel-reducible.) -/
def pyStrip (s : String) : String :=
  String.mk
    (((s.data.dropWhile Char.isWhitespace).reverse.dropWhile
        Char.isWhitespace).reverse)

/-- The status selectbox of the Add Machine form offers exactly
`("Running", "Idle", "Maintenance")`. -/
inductive StatusChoice where
  | running
  | idle
  | maintenance
  deriving Repr, DecidableEq

def StatusChoice.toStatus : StatusChoice → String
  | .running => "Running"
  | .idle => "Idle"
  | .maintenance => "Maintenance"

/-- `add_machine_page` submit handler (app.py lines 83-91): reject a
whitespace-only name with an error, otherwise insert the machine.  `now` is
the creation time used for the `last_maintenance` default.  Returns the new
store and the error message, if any. -/
def add_machine (s : Store) (machine_name : String) (machine_status : StatusChoice)
    (now : Nat) : Store × Option String :=
  if pyStrip machine_name = "" then
    (s, some "Machine name cannot be empty!")
  else
    ((insertMachine s
        { id := 0, name := machine_name, status := machine_status.toStatus,
          last_maintenance := now }).1, none)

/-- `add_product_page` submit handler (app.py lines 96-111): the price is the
hard-coded local `product_price = 0.0`; a whitespace-only name or a
non-positive quantity is rejected with an error, otherwise the product is
inserted. -/
def add_product (s : Store) (product_name : String) (quantity : Int) :
    Store × Option String :=
  let product_price : ℚ := 0
  if pyStrip product_name = "" then
    (s, some "Product name cannot be empty!")
  else if quantity ≤ 0 then
    (s, some "Quantity must be greater than 0!")
  else
    ((insertProduct s
        { id := 0, name := product_name, price := product_price,
          quantity := quantity }).1, none)

/-- `daily_report_page` (app.py lines 132-152): for each machine in insertion
order, filter the productions by its machine id and sum `run_time` and
`production_quantity`. -/
def daily_report (s : Store) : List (String × ℚ × Nat) :=
  s.machines.map (fun machine =>
    let productions := s.productions.filter (fun p => p.machine_id == machine.id)
    (machine.name,
     (productions.map (fun p => p.run_time)).sum,
     (productions.map (fun p => p.production_quantity)).sum))

/-- The End Time cell of `production_data_page` (app.py line 122):
`prod.end_time.strftime(...) if prod.end_time else "Running"`.  `fmt` stands
for the strftime formatting of a timestamp. -/
def end_time_cell (fmt : Nat → String) (p : Production) : String :=
  match p.end_time with
  | some t => fmt t
  | none => "Running"

/-- The End Time column of `production_data_page`. -/
def end_time_column (fmt : Nat → String) (s : Store) : List String :=
  s.productions.map (end_time_cell fmt)

/-- The sampling loop of `monitor_machine` (app.py lines 166-174), run on
fuel.  `env k` is the machine status observed at the k-th evaluation of the
`while machine.status == "Running"` guard; `clock` is the current time in
seconds and `start_time` the session start.  Each iteration increments the
production counter by 1, sleeps one second, computes
`run_time = (now - start_time) / 3600` in hours and inserts a Production row
with `end_time = None`.  Returns the final store and counter, or `none` if
the loop did not exit within `fuel` guard evaluations. -/
def monitorLoop (env : Nat → String) (machine_id start_time : Nat) :
    Nat → Nat → Nat → Nat → Store → Option (Store × Nat)
  | 0, _, _, _, _ => none
  | fuel + 1, k, clock, production_quantity, s =>
    if env k = "Running" then
      let production_quantity' := production_quantity + 1
      let clock' := clock + 1
      let run_time : ℚ := ((clock' - start_time : Nat) : ℚ) / 3600
      let s' := (insertProduction s
        { id := 0, machine_id := machine_id, start_time := start_time,
          end_time := none, run_time := run_time,
          production_quantity := production_quantity' }).1
      monitorLoop env machine_id start_time fuel (k + 1) clock' production_quantity' s'
    else
      some (s, production_quantity)

/-- Result of the Start Monitoring branch of `monitor_machine`. -/
inductive MonitorResult where
  | notFound (s : Store) (running_machine : Option Nat)
  | finished (s : Store) (running_machine : Option Nat) (total : Nat)
  | diverged
  deriving Repr, DecidableEq

/-- `monitor_machine`, Start Monitoring branch (app.py lines 155-176): fetch
the machine by primary key, error out if absent; otherwise set
`st.session_state.running_machine`, take the start time and run the sampling
loop with the counter initialized to 0. -/
def startMonitoring (env : Nat → String) (fuel : Nat) (s : Store)
    (running_machine : Option Nat) (machine_id now : Nat) : MonitorResult :=
  match getMachine s machine_id with
  | none => .notFound s running_machine
  | some _ =>
    match monitorLoop env machine_id now fuel 0 now 0 s with
    | none => .diverged
    | some (s', total) => .finished s' (some machine_id) total

/-- Update the status of the machine with the given primary key
(`machine.status = "Idle"; session.commit()` on the row fetched by id). -/
def setMachineStatus (s : Store) (machine_id : Nat) (st : String) : Store :=
  { s with machines := s.machines.map (fun m =>
      if m.id == machine_id then { m with status := st } else m) }

/-- Outcome reported by the Stop Monitoring branch. -/
inductive StopOutcome where
  | notFound
  | stopped
  | warned
  deriving Repr, DecidableEq

/-- `monitor_machine`, Stop Monitoring branch (app.py lines 155-159 and
178-184): fetch the machine (erroring out if absent); if
`st.session_state.running_machine == machine_id` set the machine status to
"Idle", persist it and clear the session state, otherwise warn and change
nothing. -/
def stopMonitoring (s : Store) (running_machine : Option Nat) (machine_id : Nat) :
    Store × Option Nat × StopOutcome :=
  match getMachine s machine_id with
  | none => (s, running_machine, .notFound)
  | some _ =>
    if running_machine = some machine_id then
      (setMachineStatus s machine_id "Idle", none, .stopped)
    else
      (s, running_machine, .warned)

/-- The rows a terminating monitoring session of `n` ticks appends: the j-th
row (0-based) carries the j-th assigned id, quantity `counter + j + 1` and
run time `(clock + j + 1 - start_time) / 3600` hours. -/
def expectedRows (machine_id start_time clock counter nextId n : Nat) :
    List Production :=
  (List.range n).map (fun j =>
    { id := nextId + j, machine_id := machine_id, start_time := start_time,
      end_time := none,
      run_time := ((clock + j + 1 - start_time : Nat) : ℚ) / 3600,
      production_quantity := counter + j + 1 })

/-! ### Concrete stores used as witnesses -/

/-- A store holding one machine (id 1, status "Running"). -/
def oneMachineStore : Store :=
  { emptyStore with
      machines := [{ id := 1, name := "M1", status := "Running",
                     last_maintenance := 0 }],
      nextMachineId := 2 }

/-- The store of the report example: one machine and three production samples
with run times 0.1, 0.2, 0.3 hours and quantities 1, 2, 3. -/
def reportStore : Store :=
  { products := [],
    machines := [{ id := 1, name := "M1", status := "Idle",
                   last_maintenance := 0 }],
    productions :=
      [{ id := 1, machine_id := 1, start_time := 0, end_time := none,
         run_time := 1/10, production_quantity := 1 },
       { id := 2, machine_id := 1, start_time := 0, end_time := none,
         run_time := 2/10, production_quantity := 2 },
       { id := 3, machine_id := 1, start_time := 0, end_time := none,
         run_time := 3/10, production_quantity := 3 }],
    nextProductId := 1, nextMachineId := 2, nextProductionId := 4 }

/-- The machine record invariant: status is one of the three enumerated
values and the name is non-empty. -/
def MachineOK (m : Machine) : Prop :=
  (m.status = "Running" ∨ m.status = "Idle" ∨ m.status = "Maintenance")
  ∧ m.name ≠ ""

/-- Every stored machine satisfies `MachineOK`. -/
def MachinesOK (s : Store) : Prop := ∀ m ∈ s.machines, MachineOK m

/-- Every stored production row has a null end time. -/
def EndTimesNone (s : Store) : Prop := ∀ p ∈ s.productions, p.end_time = none

/-- Environment used in witnesses: the machine status reads "Running" at the
first two guard evaluations and "Idle" from the third on. -/
def envTwoTicks : Nat → String := fun k => if k < 2 then "Running" else "Idle"

/-! ### Helper lemmas -/

lemma monitorLoop_zero (env : Nat → String) (mid st k clock counter : Nat)
    (s : Store) : monitorLoop env mid st 0 k clock counter s = none := rfl

lemma monitorLoop_succ (env : Nat → String) (mid st fuel k clock counter : Nat)
    (s : Store) :
    monitorLoop env mid st (fuel + 1) k clock counter s =
      if env k = "Running" then
        monitorLoop env mid st fuel (k + 1) (clock + 1) (counter + 1)
          { s with
            productions := s.productions ++
              [{ id := s.nextProductionId, machine_id := mid, start_time := st,
                 end_time := none,
                 run_time := ((clock + 1 - st : Nat) : ℚ) / 3600,
                 production_quantity := counter + 1 }],
            nextProductionId := s.nextProductionId + 1 }
      else some (s, counter) := rfl

/-- The sampling loop never touches the machines or products tables. -/
lemma monitorLoop_machines (env : Nat → String) (mid st : Nat) :
    ∀ (fuel k clock counter : Nat) (s s' : Store) (total : Nat),
      monitorLoop env mid st fuel k clock counter s = some (s', total) →
      s'.machines = s.machines ∧ s'.products = s.products := by
  intro fuel
  induction fuel with
  | zero =>
    intro k clock counter s s' total h
    simp [monitorLoop_zero] at h
  | succ fuel ih =>
    intro k clock counter s s' total h
    rw [monitorLoop_succ] at h
    by_cases hr : env k = "Running"
    · rw [if_pos hr] at h
      simpa using ih _ _ _ _ _ _ h
    · rw [if_neg hr] at h
      simp only [Option.some.injEq, Prod.mk.injEq] at h
      obtain ⟨h1, _⟩ := h
      subst h1
      exact ⟨rfl, rfl⟩

/-- The sampling loop only appends production rows, each with a null end
time; it never updates or deletes an existing row. -/
lemma monitorLoop_productions (env : Nat → String) (mid st : Nat) :
    ∀ (fuel k clock counter : Nat) (s s' : Store) (total : Nat),
      monitorLoop env mid st fuel k clock counter s = some (s', total) →
      ∃ l, s'.productions = s.productions ++ l ∧ ∀ p ∈ l, p.end_time = none := by
  intro fuel
  induction fuel with
  | zero =>
    intro k clock counter s s' total h
    simp [monitorLoop_zero] at h
  | succ fuel ih =>
    intro k clock counter s s' total h
    rw [monitorLoop_succ] at h
    by_cases hr : env k = "Running"
    · rw [if_pos hr] at h
      obtain ⟨l, hl, hnone⟩ := ih _ _ _ _ _ _ h
      refine ⟨{ id := s.nextProductionId, machine_id := mid, start_time := st,
                end_time := none,
                run_time := ((clock + 1 - st : Nat) : ℚ) / 3600,
                production_quantity := counter + 1 } :: l, ?_, ?_⟩
      · simpa [List.append_assoc] using hl
      · intro p hp
        rcases List.mem_cons.mp hp with h | h
        · rw [h]
        · exact hnone p h
    · rw [if_neg hr] at h
      simp only [Option.some.injEq, Prod.mk.injEq] at h
      obtain ⟨h1, _⟩ := h
      subst h1
      exact ⟨[], by simp, by simp⟩

/-- `add_product` never touches the machines or productions tables. -/
lemma add_product_tables (s : Store) (product_name : String) (quantity : Int) :
    (add_product s product_name quantity).1.machines = s.machines
    ∧ (add_product s product_name quantity).1.productions = s.productions := by
  by_cases h1 : pyStrip product_name = ""
  · simp [add_product, h1]
  · by_cases h2 : quantity ≤ 0
    · simp [add_product, h1, h2]
    · simp [add_product, h1, h2, insertProduct]

/-- `add_machine` never touches the productions table. -/
lemma add_machine_productions (s : Store) (machine_name : String)
    (machine_status : StatusChoice) (now : Nat) :
    (add_machine s machine_name machine_status now).1.productions =
      s.productions := by
  by_cases h1 : pyStrip machine_name = ""
  · simp [add_machine, h1]
  · simp [add_machine, h1, insertMachine]

/-- `stopMonitoring` never touches the productions table. -/
lemma stopMonitoring_productions (s : Store) (running_machine : Option Nat)
    (machine_id : Nat) :
    (stopMonitoring s running_machine machine_id).1.productions =
      s.productions := by
  unfold stopMonitoring
  cases getMachine s machine_id with
  | none => rfl
  | some m =>
    by_cases h : running_machine = some machine_id
    · simp [h, setMachineStatus]
    · simp [h]

lemma find?_fresh {α : Type} (l : List α) (f : α → Nat) (n : Nat)
    (h : ∀ x ∈ l, f x < n) (a : α) (ha : f a = n) :
    (l ++ [a]).find? (fun x => f x == n) = some a := by
  rw [List.find?_append]
  have h1 : l.find? (fun x => f x == n) = none := by
    rw [List.find?_eq_none]
    intro x hx
    simp only [beq_iff_eq]
    exact Nat.ne_of_lt (h x hx)
  simp [h1, List.find?, ha]

lemma expectedRows_succ (mid st clock counter nid n : Nat) :
    expectedRows mid st clock counter nid (n + 1) =
      { id := nid, machine_id := mid, start_time := st, end_time := none,
        run_time := ((clock + 1 - st : Nat) : ℚ) / 3600,
        production_quantity := counter + 1 } ::
      expectedRows mid st (clock + 1) (counter + 1) (nid + 1) n := by
  unfold expectedRows
  rw [List.range_succ_eq_map, List.map_cons, List.map_map]
  refine congrArg₂ _ (by simp) ?_
  refine List.map_congr_left ?_
  intro j _
  simp only [Function.comp_apply, Nat.succ_eq_add_one]
  have h1 : nid + (j + 1) = nid + 1 + j := by omega
  have h2 : clock + (j + 1) + 1 = clock + 1 + j + 1 := by omega
  have h3 : counter + (j + 1) + 1 = counter + 1 + j + 1 := by omega
  rw [h1, h2, h3]

/-- Exact characterization of a terminating run of the sampling loop: if the
guard reads "Running" at checks `k, …, k+n-1` and something else at check
`k+n`, the loop exits after exactly `n` iterations, appending exactly the `n`
rows of `expectedRows` and returning the counter increased by `n`. -/
lemma monitorLoop_eq (env : Nat → String) (mid st : Nat) :
    ∀ (n fuel k clock counter : Nat) (s : Store),
      (∀ j, j < n → env (k + j) = "Running") →
      env (k + n) ≠ "Running" →
      n < fuel →
      monitorLoop env mid st fuel k clock counter s =
        some ({ s with
                productions := s.productions ++
                  expectedRows mid st clock counter s.nextProductionId n,
                nextProductionId := s.nextProductionId + n },
              counter + n) := by
  intro n
  induction n with
  | zero =>
    intro fuel k clock counter s _ hstop hfuel
    match fuel, hfuel with
    | fuel + 1, _ =>
      rw [monitorLoop_succ, if_neg (by simpa using hstop)]
      simp [expectedRows]
  | succ n ih =>
    intro fuel k clock counter s hrun hstop hfuel
    match fuel, hfuel with
    | fuel + 1, hfuel =>
      rw [monitorLoop_succ, if_pos (by simpa using hrun 0 n.succ_pos)]
      rw [ih fuel (k + 1) (clock + 1) (counter + 1) _
        (fun j hj => by
          have := hrun (j + 1) (by omega)
          rwa [show k + (j + 1) = k + 1 + j by omega] at this)
        (by rwa [show k + 1 + n = k + (n + 1) by omega])
        (by omega)]
      rw [expectedRows_succ]
      have hnid : s.nextProductionId + 1 + n = s.nextProductionId + (n + 1) := by
        omega
      have hcnt : counter + 1 + n = counter + (n + 1) := by omega
      simp [hnid, hcnt, List.append_assoc]

/-- Without an external status flip the loop never exits: if every guard
check reads "Running", the loop exhausts any amount of fuel. -/
lemma monitorLoop_none (env : Nat → String) (mid st : Nat)
    (hrun : ∀ k, env k = "Running") :
    ∀ (fuel k clock counter : Nat) (s : Store),
      monitorLoop env mid st fuel k clock counter s = none := by
  intro fuel
  induction fuel with
  | zero => intro k clock counter s; rfl
  | succ fuel ih =>
    intro k clock counter s
    rw [monitorLoop_succ, if_pos (hrun k)]
    exact ih _ _ _ _

/-- When the session state matches, Stop Monitoring flips the machine status
to "Idle", clears the session state and reports the stop. -/
lemma stopMonitoring_of_match (s : Store) (rm : Option Nat) (mid : Nat)
    (hex : (getMachine s mid).isSome) (heq : rm = some mid) :
    stopMonitoring s rm mid =
      (setMachineStatus s mid "Idle", none, .stopped) := by
  obtain ⟨m, hm⟩ := Option.isSome_iff_exists.mp hex
  unfold stopMonitoring
  rw [hm, if_pos heq]

/-- When the session state does not match, Stop Monitoring changes nothing
and warns. -/
lemma stopMonitoring_of_mismatch (s : Store) (rm : Option Nat) (mid : Nat)
    (hex : (getMachine s mid).isSome) (hne : rm ≠ some mid) :
    stopMonitoring s rm mid = (s, rm, .warned) := by
  obtain ⟨m, hm⟩ := Option.isSome_iff_exists.mp hex
  unfold stopMonitoring
  rw [hm, if_neg hne]

/-- After `setMachineStatus s mid "Idle"`, every stored machine with id `mid`
has status "Idle". -/
lemma setMachineStatus_idle (s : Store) (mid : Nat) :
    ∀ m ∈ (setMachineStatus s mid "Idle").machines,
      m.id = mid → m.status = "Idle" := by
  intro m hm hid
  simp only [setMachineStatus, List.mem_map] at hm
  obtain ⟨m₀, _, hm₀⟩ := hm
  by_cases hcase : m₀.id == mid
  · rw [if_pos hcase] at hm₀
    rw [← hm₀]
  · rw [if_neg hcase] at hm₀
    rw [← hm₀] at hid
    exact absurd (by simp [hid]) hcase

/-! ### Claims -/

/-- C1: a monitoring session started on an existing machine whose status
reads "Running", and whose guard reads "Running" for exactly the first `n`
checks, finishes with session total `n` and appends exactly `n` production
rows — one per tick, quantities 1, 2, …, n (the counter is incremented by 1
before each insert) and run times strictly increasing within the session. -/
theorem claim_C1 (env : Nat → String) (fuel n : Nat) (s : Store)
    (running_machine : Option Nat) (machine_id now : Nat) (m : Machine)
    (hfind : getMachine s machine_id = some m)
    (hstatus : m.status = "Running")
    (henv0 : env 0 = m.status)
    (hrun : ∀ j, j < n → env j = "Running")
    (hstop : env n ≠ "Running")
    (hfuel : n < fuel) :
    startMonitoring env fuel s running_machine machine_id now =
      .finished
        { s with
          productions := s.productions ++
            expectedRows machine_id now now 0 s.nextProductionId n,
          nextProductionId := s.nextProductionId + n }
        (some machine_id) n
    ∧ (expectedRows machine_id now now 0 s.nextProductionId n).length = n
    ∧ (expectedRows machine_id now now 0 s.nextProductionId n).map
        (fun p => p.production_quantity) = (List.range n).map (fun j => j + 1)
    ∧ (expectedRows machine_id now now 0 s.nextProductionId n).Pairwise
        (fun p q => p.run_time < q.run_time) := by
  refine ⟨?_, by simp [expectedRows], ?_, ?_⟩
  · unfold startMonitoring
    rw [hfind, monitorLoop_eq env machine_id now n fuel 0 now 0 s
      (fun j hj => by simpa using hrun j hj) (by simpa using hstop) hfuel]
    simp
  · unfold expectedRows
    rw [List.map_map]
    refine List.map_congr_left ?_
    intro j _
    simp
  · unfold expectedRows
    rw [List.pairwise_map]
    refine List.Pairwise.imp ?_ (List.pairwise_lt_range n)
    intro a b hab
    simp only
    rw [show now + a + 1 - now = a + 1 by omega,
      show now + b + 1 - now = b + 1 by omega]
    gcongr


theorem claim_C1_witness :
    startMonitoring envTwoTicks 3 oneMachineStore none 1 100 =
      .finished
        { oneMachineStore with
          productions := oneMachineStore.productions ++
            expectedRows 1 100 100 0 oneMachineStore.nextProductionId 2,
          nextProductionId := oneMachineStore.nextProductionId + 2 }
        (some 1) 2 :=
  (claim_C1 envTwoTicks 3 2 oneMachineStore none 1 100
    { id := 1, name := "M1", status := "Running", last_maintenance := 0 }
    (by decide) rfl rfl (by decide) (by decide) (by decide)).1

/-- C2: stopping monitoring with the matching machine id sets that machine's
status to "Idle"; a sampling loop whose guard stops reading "Running" at
check `k + n` exits right at that check (within one tick of the flip), with
no further iterations; and without an external flip — every check reading
"Running" — the loop never terminates. -/
theorem claim_C2 :
    (∀ s rm mid, (getMachine s mid).isSome → rm = some mid →
      (stopMonitoring s rm mid).1 = setMachineStatus s mid "Idle"
      ∧ ∀ m ∈ (stopMonitoring s rm mid).1.machines,
          m.id = mid → m.status = "Idle")
    ∧ (∀ env mid st n fuel k clock counter s,
        (∀ j, j < n → env (k + j) = "Running") →
        env (k + n) ≠ "Running" →
        n < fuel →
        monitorLoop env mid st fuel k clock counter s =
          some ({ s with
                  productions := s.productions ++
                    expectedRows mid st clock counter s.nextProductionId n,
                  nextProductionId := s.nextProductionId + n },
                counter + n))
    ∧ (∀ env mid st, (∀ k, env k = "Running") →
        ∀ fuel k clock counter s,
          monitorLoop env mid st fuel k clock counter s = none) := by
  refine ⟨?_, ?_, monitorLoop_none⟩
  · intro s rm mid hex heq
    rw [stopMonitoring_of_match s rm mid hex heq]
    exact ⟨rfl, setMachineStatus_idle s mid⟩
  · intro env mid st n fuel k clock counter s hrun hstop hfuel
    exact monitorLoop_eq env mid st n fuel k clock counter s hrun hstop hfuel

theorem claim_C2_witness :
    (stopMonitoring oneMachineStore (some 1) 1).1 =
      setMachineStatus oneMachineStore 1 "Idle" :=
  (claim_C2.1 oneMachineStore (some 1) 1 (by decide) rfl).1

/-- C3: `daily_report` over a store with zero machines returns the empty
report; over a machine whose rows have run times {0.1, 0.2, 0.3} and
quantities {1, 2, 3} it returns the single tuple (name, 0.6, 6), the plain
non-deduplicated sums over the rows filtered by that machine id; and in
general it produces one tuple per machine in insertion order. -/
theorem claim_C3 :
    daily_report emptyStore = []
    ∧ daily_report reportStore = [("M1", 6/10, 6)]
    ∧ ∀ s : Store, (daily_report s).map (fun r => r.1) =
        s.machines.map (fun m => m.name) := by
  refine ⟨rfl, ?_, ?_⟩
  · show [("M1", (1/10 : ℚ) + ((2/10 : ℚ) + ((3/10 : ℚ) + 0)), 1 + (2 + (3 + 0)))]
      = [("M1", 6/10, 6)]
    norm_num
  · intro s
    simp [daily_report]

/-- C4: starting monitoring on a machine id that is not in the store reports
a not-found error, inserts no ProductionRun rows and leaves the store and the
session state unchanged. -/
theorem claim_C4 (env : Nat → String) (fuel : Nat) (s : Store)
    (running_machine : Option Nat) (machine_id now : Nat)
    (h : getMachine s machine_id = none) :
    startMonitoring env fuel s running_machine machine_id now =
      .notFound s running_machine := by
  simp [startMonitoring, h]

theorem claim_C4_witness :
    startMonitoring (fun _ => "Running") 5 emptyStore none 7 0 =
      .notFound emptyStore none :=
  claim_C4 (fun _ => "Running") 5 emptyStore none 7 0 rfl

/-- C8: every successful product creation stores a product whose price is
exactly 0 (the handler hard-codes `product_price = 0.0` and offers no price
input). -/
theorem claim_C8 (s : Store) (product_name : String) (quantity : Int)
    (h : (add_product s product_name quantity).2 = none) :
    ∃ p : Product,
      (add_product s product_name quantity).1.products = s.products ++ [p]
      ∧ p.price = 0 := by
  by_cases h1 : pyStrip product_name = ""
  · simp [add_product, h1] at h
  · by_cases h2 : quantity ≤ 0
    · simp [add_product, h1, h2] at h
    · exact ⟨{ id := s.nextProductId, name := product_name, price := 0,
               quantity := quantity },
        by simp [add_product, h1, h2, insertProduct], rfl⟩

theorem claim_C8_witness :
    ∃ p : Product,
      (add_product emptyStore "Widget" 2).1.products = emptyStore.products ++ [p]
      ∧ p.price = 0 :=
  claim_C8 emptyStore "Widget" 2 (by decide)

/-- C9: in a well-formed store, inserting a record and fetching it back by
the assigned identity returns field-for-field identical data, for each of the
three entity kinds. -/
theorem claim_C9 (s : Store) (hwf : s.WF) (p : Product) (m : Machine)
    (r : Production) :
    getProduct (insertProduct s p).1 (insertProduct s p).2 =
      some { p with id := (insertProduct s p).2 }
    ∧ getMachine (insertMachine s m).1 (insertMachine s m).2 =
      some { m with id := (insertMachine s m).2 }
    ∧ getProduction (insertProduction s r).1 (insertProduction s r).2 =
      some { r with id := (insertProduction s r).2 } := by
  refine ⟨?_, ?_, ?_⟩
  · exact find?_fresh s.products (fun q => q.id) s.nextProductId hwf.1 _ rfl
  · exact find?_fresh s.machines (fun q => q.id) s.nextMachineId hwf.2.1 _ rfl
  · exact find?_fresh s.productions (fun q => q.id) s.nextProductionId hwf.2.2 _ rfl

theorem claim_C9_witness :
    getProduct
        (insertProduct emptyStore
          { id := 0, name := "P", price := 5, quantity := 2 }).1
        (insertProduct emptyStore
          { id := 0, name := "P", price := 5, quantity := 2 }).2 =
      some { id := (insertProduct emptyStore
          { id := 0, name := "P", price := 5, quantity := 2 }).2,
             name := "P", price := 5, quantity := 2 } :=
  (claim_C9 emptyStore (by simp [Store.WF, emptyStore])
    { id := 0, name := "P", price := 5, quantity := 2 }
    { id := 0, name := "M", status := "Idle", last_maintenance := 0 }
    { id := 0, machine_id := 1, start_time := 0, end_time := none,
      run_time := 0, production_quantity := 0 }).1

/-- C5: provided the machine exists, Stop Monitoring sets its status to
"Idle" (persisting it and clearing the session state) exactly when the
process-local `running_machine` session state equals the machine id;
otherwise it changes nothing and reports a warning. -/
theorem claim_C5 (s : Store) (running_machine : Option Nat) (machine_id : Nat)
    (hex : (getMachine s machine_id).isSome) :
    (running_machine = some machine_id →
      stopMonitoring s running_machine machine_id =
        (setMachineStatus s machine_id "Idle", none, .stopped)
      ∧ ∀ m ∈ (stopMonitoring s running_machine machine_id).1.machines,
          m.id = machine_id → m.status = "Idle")
    ∧ (running_machine ≠ some machine_id →
      stopMonitoring s running_machine machine_id =
        (s, running_machine, .warned)) := by
  constructor
  · intro heq
    rw [stopMonitoring_of_match s running_machine machine_id hex heq]
    exact ⟨rfl, setMachineStatus_idle s machine_id⟩
  · exact stopMonitoring_of_mismatch s running_machine machine_id hex

theorem claim_C5_witness :
    stopMonitoring oneMachineStore (some 1) 1 =
      (setMachineStatus oneMachineStore 1 "Idle", none, .stopped) :=
  ((claim_C5 oneMachineStore (some 1) 1 (by decide)).1 rfl).1

/-- C6 counterexample: a whitespace-only name is non-empty, yet with a
positive quantity the submission is rejected and nothing is stored, so
"stored iff name non-empty and quantity > 0" fails as stated. -/
theorem claim_C6_counterexample :
    (" " : String) ≠ ""
    ∧ (0 : Int) < 1
    ∧ (add_product emptyStore " " 1).1 = emptyStore
    ∧ (add_product emptyStore " " 1).2 = some "Product name cannot be empty!" := by
  refine ⟨by decide, by decide, by decide, by decide⟩

/-- C6 (amended): a product record is stored iff the name is non-empty after
stripping whitespace and the quantity is positive; a valid submission appends
exactly the entered record (with price 0), and a rejected submission reports
an error and leaves the store unchanged. -/
theorem claim_C6 (s : Store) (product_name : String) (quantity : Int) :
    ((add_product s product_name quantity).2 = none ↔
      pyStrip product_name ≠ "" ∧ 0 < quantity)
    ∧ (pyStrip product_name ≠ "" → 0 < quantity →
        (add_product s product_name quantity).1.products =
          s.products ++ [{ id := s.nextProductId, name := product_name,
                           price := 0, quantity := quantity }])
    ∧ ((add_product s product_name quantity).2 ≠ none →
        (add_product s product_name quantity).1 = s) := by
  by_cases h1 : pyStrip product_name = ""
  · simp [add_product, h1]
  · by_cases h2 : quantity ≤ 0
    · simp [add_product, h1, h2]
    · have h2' : 0 < quantity := by omega
      simp [add_product, h1, h2, insertProduct, h2']

theorem claim_C6_witness :
    (add_product emptyStore "Widget" 2).2 = none :=
  (claim_C6 emptyStore "Widget" 2).1.mpr ⟨by decide, by decide⟩

/-- C7: every machine created through the add-machine flow is stored with a
status from {Running, Idle, Maintenance} and a non-empty name, and this
machine invariant is preserved by every operation in scope (adding machines,
adding products, stopping monitoring, and a completed monitoring session). -/
theorem claim_C7 :
    (∀ s name choice now,
      (add_machine s name choice now).2 = none →
      ∃ m, (add_machine s name choice now).1.machines = s.machines ++ [m]
        ∧ MachineOK m)
    ∧ (∀ s name choice now, MachinesOK s →
        MachinesOK (add_machine s name choice now).1)
    ∧ (∀ s name qty, MachinesOK s → MachinesOK (add_product s name qty).1)
    ∧ (∀ s rm mid, MachinesOK s → MachinesOK (stopMonitoring s rm mid).1)
    ∧ (∀ env fuel s rm mid now s' rm' total, MachinesOK s →
        startMonitoring env fuel s rm mid now = .finished s' rm' total →
        MachinesOK s') := by
  have hnew : ∀ (s : Store) (name : String) (choice : StatusChoice) (now : Nat),
      pyStrip name ≠ "" →
      MachineOK { id := s.nextMachineId, name := name,
                  status := choice.toStatus, last_maintenance := now } := by
    intro s name choice now h1
    constructor
    · cases choice <;> simp [StatusChoice.toStatus]
    · intro hn
      simp only at hn
      rw [hn] at h1
      exact h1 rfl
  have hadd : ∀ (s : Store) (name : String) (choice : StatusChoice) (now : Nat),
      MachinesOK s → MachinesOK (add_machine s name choice now).1 := by
    intro s name choice now hok
    by_cases h1 : pyStrip name = ""
    · simpa [add_machine, h1] using hok
    · intro m hm
      simp only [add_machine, h1, if_neg, insertMachine, List.mem_append,
        List.mem_singleton, if_false] at hm
      rcases hm with hm | hm
      · exact hok m hm
      · rw [hm]
        exact hnew s name choice now h1
  refine ⟨?_, hadd, ?_, ?_, ?_⟩
  · intro s name choice now h
    by_cases h1 : pyStrip name = ""
    · simp [add_machine, h1] at h
    · exact ⟨_, by simp [add_machine, h1, insertMachine], hnew s name choice now h1⟩
  · intro s name qty hok
    intro m hm
    rw [(add_product_tables s name qty).1] at hm
    exact hok m hm
  · intro s rm mid hok
    unfold stopMonitoring
    cases hg : getMachine s mid with
    | none => exact hok
    | some m0 =>
      by_cases h : rm = some mid
      · rw [if_pos h]
        intro m hm
        simp only [setMachineStatus, List.mem_map] at hm
        obtain ⟨m₀, hm₀mem, hm₀⟩ := hm
        have hok₀ := hok m₀ hm₀mem
        by_cases hcase : m₀.id == mid
        · rw [if_pos hcase] at hm₀
          rw [← hm₀]
          exact ⟨Or.inr (Or.inl rfl), hok₀.2⟩
        · rw [if_neg hcase] at hm₀
          rw [← hm₀]
          exact hok₀
      · rw [if_neg h]
        exact hok
  · intro env fuel s rm mid now s' rm' total hok heq
    unfold startMonitoring at heq
    cases hg : getMachine s mid with
    | none => rw [hg] at heq; exact absurd heq (by simp)
    | some m0 =>
      rw [hg] at heq
      cases hl : monitorLoop env mid now fuel 0 now 0 s with
      | none => rw [hl] at heq; exact absurd heq (by simp)
      | some r =>
        rw [hl] at heq
        obtain ⟨s₀, t₀⟩ := r
        simp only [MonitorResult.finished.injEq] at heq
        obtain ⟨hs, -, -⟩ := heq
        subst hs
        intro m hm
        rw [(monitorLoop_machines env mid now fuel 0 now 0 s s₀ t₀ hl).1] at hm
        exact hok m hm

theorem claim_C7_witness :
    MachinesOK (add_machine emptyStore "M1" .running 0).1 :=
  claim_C7.2.1 emptyStore "M1" .running 0 (by simp [MachinesOK, emptyStore])

/-- C10: production rows are only ever appended, always with a null end
time, by every operation in scope — no operation updates or deletes one — so
in every store with all-null end times the Production Data view renders every
row's End Time cell as "Running". -/
theorem claim_C10 :
    (∀ s n c t, (add_machine s n c t).1.productions = s.productions)
    ∧ (∀ s n q, (add_product s n q).1.productions = s.productions)
    ∧ (∀ s rm mid, (stopMonitoring s rm mid).1.productions = s.productions)
    ∧ (∀ env fuel s rm mid now s' rm' total,
        startMonitoring env fuel s rm mid now = .finished s' rm' total →
        ∃ l, s'.productions = s.productions ++ l ∧ ∀ p ∈ l, p.end_time = none)
    ∧ (∀ env fuel s rm mid now s' rm' total, EndTimesNone s →
        startMonitoring env fuel s rm mid now = .finished s' rm' total →
        EndTimesNone s')
    ∧ (∀ s, EndTimesNone s → ∀ fmt,
        end_time_column fmt s = s.productions.map (fun _ => "Running")) := by
  have hstart : ∀ (env : Nat → String) (fuel : Nat) (s : Store)
      (rm : Option Nat) (mid now : Nat) (s' : Store) (rm' : Option Nat)
      (total : Nat),
      startMonitoring env fuel s rm mid now = .finished s' rm' total →
      ∃ l, s'.productions = s.productions ++ l ∧ ∀ p ∈ l, p.end_time = none := by
    intro env fuel s rm mid now s' rm' total heq
    unfold startMonitoring at heq
    cases hg : getMachine s mid with
    | none => rw [hg] at heq; exact absurd heq (by simp)
    | some m0 =>
      rw [hg] at heq
      cases hl : monitorLoop env mid now fuel 0 now 0 s with
      | none => rw [hl] at heq; exact absurd heq (by simp)
      | some r =>
        rw [hl] at heq
        obtain ⟨s₀, t₀⟩ := r
        simp only [MonitorResult.finished.injEq] at heq
        obtain ⟨hs, -, -⟩ := heq
        subst hs
        exact monitorLoop_productions env mid now fuel 0 now 0 s s₀ t₀ hl
  refine ⟨?_, ?_, ?_, hstart, ?_, ?_⟩
  · intro s n c t; exact add_machine_productions s n c t
  · intro s n q; exact (add_product_tables s n q).2
  · intro s rm mid; exact stopMonitoring_productions s rm mid
  · intro env fuel s rm mid now s' rm' total hnone heq
    obtain ⟨l, hl, hlnone⟩ := hstart env fuel s rm mid now s' rm' total heq
    intro p hp
    rw [hl] at hp
    rcases List.mem_append.mp hp with h | h
    · exact hnone p h
    · exact hlnone p h
  · intro s hnone fmt
    unfold end_time_column
    apply List.map_congr_left
    intro p hp
    unfold end_time_cell
    rw [hnone p hp]

theorem claim_C10_witness :
    end_time_column (fun t => toString t) reportStore =
      reportStore.productions.map (fun _ => "Running") :=
  claim_C10.2.2.2.2.2 reportStore (by simp [EndTimesNone, reportStore])
    (fun t => toString t)

end Manufac
